import Mathlib

/-!
Verification of the TrueNAS VM manager orchestration logic
(`truenas-vm-manager.py`) against its specification.

The remote API client is modelled as an environment `Env` that decides, for
every call index and call description, whether the blocking remote call
succeeds, which message the raised exception carries when it fails, which VM
id a `vm.create` call returns, and which VM records `vm.query` returns.
Every operation of the program is translated into a pure function that
threads the call counter, returns the list of remote calls it issued (in
issue order) and the Python exception it raised, if any.

Device templates are external JSON documents; the program only overlays a
fixed set of runtime attributes on a deep copy of each template and reads the
template `dtype` attribute for log/error messages, so templates are
modelled by the `Templates` structure carrying exactly those `dtype` strings,
and a device value carries the overlaid attributes.  Logging itself is not
modelled.  File and socket I/O (template loading, YAML parsing, websocket
construction) are external collaborators and are outside the model.
-/

namespace TruenasVmManager

/-- A device specification submitted to `vm.device.create`, carrying the
attributes the program overlays on the corresponding template
(`TemplateManager.create_*_device`). -/
inductive Device where
  | display (vm : Nat) (port : Nat) (password : String)
  | cdrom (vm : Nat) (path : String)
  | nic (vm : Nat) (nicAttach : String)
  | disk (vm : Nat) (zvolName : String) (zvolVolsize : Nat)
deriving DecidableEq, Repr

/-- A remote API call issued through `self.client.call`, plus the transport
operations of connect/disconnect. -/
inductive RCall where
  | authLogin
  | authLogout
  | clientClose
  | vmCreate (name : String) (cores threads memory : Nat)
  | deviceCreate (dev : Device)
  | vmStart (id : Nat)
  | vmPoweroff (id : Nat)
  | vmDelete (id : Nat) (zvols force : Bool)
  | vmQuery
deriving DecidableEq, Repr

/-- Is this call a `vm.delete`? -/
def RCall.isDelete : RCall → Bool
  | .vmDelete _ _ _ => true
  | _ => false

/-- Is this call a `vm.create`? -/
def RCall.isVmCreate : RCall → Bool
  | .vmCreate _ _ _ _ => true
  | _ => false

/-- Is this call a `vm.device.create`? -/
def RCall.isDeviceCreate : RCall → Bool
  | .deviceCreate _ => true
  | _ => false

/-- Is this call a `vm.device.create` of a disk device? -/
def RCall.isDiskCreate : RCall → Bool
  | .deviceCreate (.disk _ _ _) => true
  | _ => false

/-- Is this call a mutating VM call (`vm.create`, `vm.device.create`,
`vm.start`, `vm.delete`)? -/
def RCall.isMutation : RCall → Bool
  | .vmCreate _ _ _ _ => true
  | .deviceCreate _ => true
  | .vmStart _ => true
  | .vmDelete _ _ _ => true
  | _ => false

/-- The Python exceptions the program distinguishes: `KeyError` from a
missing mapping key, the custom `TrueNASError` of the program, `ValueError` from
configuration validation, and an arbitrary exception raised by a remote
call itself. -/
inductive PyErr where
  | keyError (key : String)
  | trueNASError (msg : String)
  | valueError (msg : String)
  | remoteError (msg : String)
deriving DecidableEq, Repr

/-- `str(e)` of a modelled exception (`KeyError` renders its key quoted). -/
def PyErr.str : PyErr → String
  | .keyError k => "\x27" ++ k ++ "\x27"
  | .trueNASError m => m
  | .valueError m => m
  | .remoteError m => m

/-- A record returned by `vm.query`; only `id` and `name` are read. -/
structure VMRec where
  id : Nat
  name : String
deriving DecidableEq, Repr

/-- The remote system: for each call index and call description, whether the
call succeeds, the exception message on failure, the id a `vm.create`
returns, and the `vm.query` result. -/
structure Env where
  ok : Nat → RCall → Bool
  errMsg : Nat → RCall → String
  createId : Nat → Nat
  query : List VMRec

/-- Result of running an operation: the call counter afterwards, the remote
calls issued (in order), and the exception the operation raised, if any. -/
structure OpResult where
  n : Nat
  calls : List RCall
  err : Option PyErr
deriving DecidableEq, Repr

/-- Result of a batch operation (`create_vm_type`): additionally counts how
many per-instance creation attempts (loop iterations) were entered. -/
structure BatchResult where
  n : Nat
  attempts : Nat
  calls : List RCall
  err : Option PyErr
deriving DecidableEq, Repr

/-- The `dtype` attribute of each loaded device template; templates are
external JSON documents, the program reads `dtype` only for messages. -/
structure Templates where
  displayDtype : String
  cdromDtype : String
  nicDtype : String
  diskDtype : String
deriving DecidableEq, Repr

/-- `device.get("attributes", {}).get("dtype", "unknown")` for a device
derived from the template of its variant. -/
def Templates.dtypeOf (t : Templates) : Device → String
  | .display _ _ _ => t.displayDtype
  | .cdrom _ _ => t.cdromDtype
  | .nic _ _ => t.nicDtype
  | .disk _ _ _ => t.diskDtype

/-- A per-VM-type configuration section.  The program reads exactly the keys
`count`, `cpu`, `memory`, `network`, `disk`; `extra` counts any other keys in
the mapping, so that Python truthiness of the section (non-emptiness of the
dict) is modelled exactly.  `network` and `disk` are insertion-ordered
mappings; the program iterates their `.values()` in declared order. -/
structure TypeConfig where
  count : Option Int
  cpu : Option Nat
  memory : Option Nat
  network : Option (List (String × String))
  disk : Option (List (String × Nat))
  extra : Nat
deriving DecidableEq, Repr

/-- Python truthiness of the section dict: non-empty. -/
def TypeConfig.truthy (c : TypeConfig) : Bool :=
  c.count.isSome || c.cpu.isSome || c.memory.isSome || c.network.isSome ||
    c.disk.isSome || c.extra != 0

/-- The `storage` configuration section; `extra` counts unrecognized keys. -/
structure StorageConfig where
  pool_path : Option String
  cdrom_path : Option String
  extra : Nat
deriving DecidableEq, Repr

/-- Python truthiness of the storage dict: non-empty. -/
def StorageConfig.truthy (s : StorageConfig) : Bool :=
  s.pool_path.isSome || s.cdrom_path.isSome || s.extra != 0

/-- The loaded configuration document: the `storage` section and the
per-VM-type sections keyed by type name. -/
structure Config where
  storage : Option StorageConfig
  types : List (String × TypeConfig)

/-- `config.get(vm_type)`. -/
def Config.getType (c : Config) (name : String) : Option TypeConfig :=
  c.types.lookup name

/-- `TemplateManager.create_display_device`. -/
def create_display_device (vmId port : Nat) (password : String) : Device :=
  .display vmId port password

/-- `TemplateManager.create_cdrom_device`. -/
def create_cdrom_device (vmId : Nat) (path : String) : Device :=
  .cdrom vmId path

/-- `TemplateManager.create_nic_device` (always called with `mac=None`,
so no mac attribute is overlaid). -/
def create_nic_device (vmId : Nat) (nicAttach : String) : Device :=
  .nic vmId nicAttach

/-- `TemplateManager.create_disk_device`. -/
def create_disk_device (vmId : Nat) (zvolName : String) (sizeBytes : Nat) : Device :=
  .disk vmId zvolName sizeBytes

/-- Python `f"{m:02d}"` formatting: decimal rendering left-padded with zeros to at
least two digits. -/
def padTwo (m : Nat) : String :=
  if m < 10 then "0" ++ toString m else toString m

/-- `VMManager._add_device`: issue `vm.device.create`; on failure raise
`TrueNASError("Failed to add device {dtype}: {e}")`. -/
def add_device (env : Env) (t : Templates) (dev : Device) (n : Nat) : OpResult :=
  ⟨n + 1, [RCall.deviceCreate dev],
    if env.ok n (RCall.deviceCreate dev) then none
    else some (.trueNASError ("Failed to add device " ++ t.dtypeOf dev ++ ": "
      ++ env.errMsg n (RCall.deviceCreate dev)))⟩

/-- The NIC loop of `_create_vm_devices`: one NIC device per entry of
`vm_config["network"].values()`, in declared order; the first failure
propagates. -/
def attachNics (env : Env) (t : Templates) (vmId : Nat) :
    List (String × String) → Nat → OpResult
  | [], n => ⟨n, [], none⟩
  | p :: rest, n =>
    let r := add_device env t (create_nic_device vmId p.2) n
    match r.err with
    | some e => ⟨r.n, r.calls, some e⟩
    | none =>
      let r2 := attachNics env t vmId rest r.n
      ⟨r2.n, r.calls ++ r2.calls, r2.err⟩

/-- The disk loop of `_create_vm_devices`: one disk device per entry of
`vm_config["disk"].values()` with its zero-based `enumerate` index; the
first failure propagates. -/
def attachDisks (env : Env) (t : Templates) (vmId : Nat) (name pool : String) :
    List (String × Nat) → Nat → Nat → OpResult
  | [], _, n => ⟨n, [], none⟩
  | p :: rest, idx, n =>
    let zvol := pool ++ "/" ++ name ++ "-disk" ++ toString idx
    let r := add_device env t (create_disk_device vmId zvol (p.2 * 1024 ^ 3)) n
    match r.err with
    | some e => ⟨r.n, r.calls, some e⟩
    | none =>
      let r2 := attachDisks env t vmId name pool rest (idx + 1) r.n
      ⟨r2.n, r.calls ++ r2.calls, r2.err⟩

/-- The storage-device block of `_create_vm_devices`: read
`storage_config["pool_path"]` (raising `KeyError` if missing), read
`vm_config["disk"]` (likewise), then attach the disks. -/
def devsDisks (env : Env) (t : Templates) (vmId : Nat) (name : String)
    (storage : StorageConfig) (cfg : TypeConfig) (n : Nat) : OpResult :=
  match storage.pool_path with
  | none => ⟨n, [], some (.keyError "pool_path")⟩
  | some pool =>
    match cfg.disk with
    | none => ⟨n, [], some (.keyError "disk")⟩
    | some disks => attachDisks env t vmId name pool disks 0 n

/-- The network block of `_create_vm_devices` and everything after it: read
`vm_config["network"]` (raising `KeyError` if missing), attach the NICs,
then the storage-device block. -/
def devsNet (env : Env) (t : Templates) (vmId : Nat) (name : String)
    (storage : StorageConfig) (cfg : TypeConfig) (n : Nat) : OpResult :=
  match cfg.network with
  | none => ⟨n, [], some (.keyError "network")⟩
  | some nics =>
    let r := attachNics env t vmId nics n
    match r.err with
    | some e => ⟨r.n, r.calls, some e⟩
    | none =>
      let r2 := devsDisks env t vmId name storage cfg r.n
      ⟨r2.n, r.calls ++ r2.calls, r2.err⟩

/-- The CDROM block of `_create_vm_devices` and everything after it: read
`storage_config["cdrom_path"]` (raising `KeyError` if missing), attach the
CDROM device, then the network block. -/
def devsCdrom (env : Env) (t : Templates) (vmId : Nat) (name : String)
    (storage : StorageConfig) (cfg : TypeConfig) (n : Nat) : OpResult :=
  match storage.cdrom_path with
  | none => ⟨n, [], some (.keyError "cdrom_path")⟩
  | some cd =>
    let r := add_device env t (create_cdrom_device vmId cd) n
    match r.err with
    | some e => ⟨r.n, r.calls, some e⟩
    | none =>
      let r2 := devsNet env t vmId name storage cfg r.n
      ⟨r2.n, r.calls ++ r2.calls, r2.err⟩

/-- `VMManager._create_vm_devices`: display, cdrom, NICs in declared order,
disks in declared order; a missing mapping key raises `KeyError` at the
point the source reads it, and the first failed attach propagates. -/
def create_vm_devices (env : Env) (t : Templates) (vmId : Nat) (name : String)
    (cfg : TypeConfig) (vncPort : Nat) (storage : StorageConfig) (pw : String)
    (n : Nat) : OpResult :=
  let r := add_device env t (create_display_device vmId vncPort pw) n
  match r.err with
  | some e => ⟨r.n, r.calls, some e⟩
  | none =>
    let r2 := devsCdrom env t vmId name storage cfg r.n
    ⟨r2.n, r.calls ++ r2.calls, r2.err⟩

/-- The body of the second `try` of `_create_single_vm`: attach all devices,
then call `vm.start`. -/
def configure_and_start (env : Env) (t : Templates) (vmId : Nat) (name : String)
    (cfg : TypeConfig) (vncPort : Nat) (storage : StorageConfig) (pw : String)
    (n : Nat) : OpResult :=
  let r := create_vm_devices env t vmId name cfg vncPort storage pw n
  match r.err with
  | some e => ⟨r.n, r.calls, some e⟩
  | none =>
    ⟨r.n + 1, r.calls ++ [RCall.vmStart vmId],
      if env.ok r.n (RCall.vmStart vmId) then none
      else some (.remoteError (env.errMsg r.n (RCall.vmStart vmId)))⟩

/-- `VMManager._create_single_vm`: build the VM spec (raising `KeyError` if
`cpu` or `memory` is missing), call `vm.create` (wrapping a failure as
`TrueNASError("VM creation failed: ...")` and aborting), then configure and
start; on a configure/start failure issue one best-effort
`vm.delete(vm_id, zvols=True, force=True)` whose own outcome is only logged
and discarded, and raise `TrueNASError("VM configuration failed: ...")`
carrying the message of the original failure. -/
def create_single_vm (env : Env) (t : Templates) (name : String)
    (cfg : TypeConfig) (vncPort : Nat) (storage : StorageConfig) (pw : String)
    (n : Nat) : OpResult :=
  match cfg.cpu with
  | none => ⟨n, [], some (.keyError "cpu")⟩
  | some cpu =>
    match cfg.memory with
    | none => ⟨n, [], some (.keyError "memory")⟩
    | some mem =>
      let cc := RCall.vmCreate name cpu cpu mem
      if env.ok n cc then
        let r := configure_and_start env t (env.createId n) name cfg vncPort
          storage pw (n + 1)
        match r.err with
        | none => ⟨r.n, cc :: r.calls, none⟩
        | some e =>
          ⟨r.n + 1, cc :: r.calls ++ [RCall.vmDelete (env.createId n) true true],
            some (.trueNASError ("VM configuration failed: " ++ e.str))⟩
      else ⟨n + 1, [cc],
        some (.trueNASError ("VM creation failed: " ++ env.errMsg n cc))⟩

/-- The creation loop of `create_vm_type` over `range(count)`: names
`f"{vm_type}{idx+1:02d}"`, VNC ports `vnc_start_port + idx + 1`; only
`TrueNASError` from an attempt is caught (and logged), any other exception
propagates.  `attempts` counts entered iterations. -/
def createLoop (env : Env) (t : Templates) (pw : String) (vmType : String)
    (vncStartPort : Nat) (cfg : TypeConfig) (storage : StorageConfig) :
    Nat → Nat → Nat → BatchResult
  | 0, _, n => ⟨n, 0, [], none⟩
  | rem + 1, idx, n =>
    let name := vmType ++ padTwo (idx + 1)
    let port := vncStartPort + idx + 1
    let r := create_single_vm env t name cfg port storage pw n
    match r.err with
    | some (PyErr.trueNASError _) =>
      let b := createLoop env t pw vmType vncStartPort cfg storage rem (idx + 1) r.n
      ⟨b.n, b.attempts + 1, r.calls ++ b.calls, b.err⟩
    | some e => ⟨r.n, 1, r.calls, some e⟩
    | none =>
      let b := createLoop env t pw vmType vncStartPort cfg storage rem (idx + 1) r.n
      ⟨b.n, b.attempts + 1, r.calls ++ b.calls, b.err⟩

/-- `VMManager.create_vm_type`: resolve and truthiness-check the type and
storage sections, default a missing `count` to 0 and return silently when
`count <= 0`, read `pool_path` and `cdrom_path` for logging (raising
`KeyError` if missing), then run the creation loop. -/
def create_vm_type (env : Env) (t : Templates) (pw : String) (config : Config)
    (vmType : String) (vncStartPort : Nat) (n : Nat) : BatchResult :=
  match config.getType vmType with
  | none => ⟨n, 0, [], some (.trueNASError
      ("VM type \x27" ++ vmType ++ "\x27 not found in configuration"))⟩
  | some cfg =>
    if cfg.truthy = false then
      ⟨n, 0, [], some (.trueNASError
        ("VM type \x27" ++ vmType ++ "\x27 not found in configuration"))⟩
    else
      match config.storage with
      | none => ⟨n, 0, [], some (.trueNASError
          "Storage configuration not found in config")⟩
      | some storage =>
        if storage.truthy = false then
          ⟨n, 0, [], some (.trueNASError
            "Storage configuration not found in config")⟩
        else
          let count := cfg.count.getD 0
          if count ≤ 0 then ⟨n, 0, [], none⟩
          else
            match storage.pool_path with
            | none => ⟨n, 0, [], some (.keyError "pool_path")⟩
            | some _ =>
              match storage.cdrom_path with
              | none => ⟨n, 0, [], some (.keyError "cdrom_path")⟩
              | some _ =>
                createLoop env t pw vmType vncStartPort cfg storage count.toNat 0 n

/-- Is the first character list a leading segment of the second? -/
def listPre : List Char → List Char → Bool
  | [], _ => true
  | _, [] => false
  | a :: as, b :: bs => a == b && listPre as bs

/-- Python `str.startswith`: character-wise leading-segment test. -/
def pyStartsWith (s p : String) : Bool := listPre p.data s.data

/-- The VMs `destroy_managed_vms` matches: those whose name starts with one
of the prefixes (default `["controlplane", "worker"]`). -/
def matchedVMs (env : Env) (pres : Option (List String)) : List VMRec :=
  env.query.filter fun vm =>
    (pres.getD ["controlplane", "worker"]).any fun p => pyStartsWith vm.name p

/-- The teardown loop of `destroy_managed_vms`: for each matched VM, attempt
`vm.poweroff` and then `vm.delete(id, zvols=True, force=True)`; both are in
their own try/except, so both outcomes are only logged and never interrupt
the loop. -/
def destroyLoop (env : Env) : List VMRec → Nat → Nat × List RCall
  | [], n => (n, [])
  | vm :: rest, n =>
    let (n2, cs) := destroyLoop env rest (n + 2)
    (n2, RCall.vmPoweroff vm.id :: RCall.vmDelete vm.id true true :: cs)

/-- `VMManager.destroy_managed_vms`: query all VMs (a failure is wrapped as
`TrueNASError` and is fatal), filter to those whose name starts with one of
the prefixes (default `["controlplane", "worker"]`), return successfully if
no VM matches, otherwise tear each matched VM down best-effort. -/
def destroy_managed_vms (env : Env) (pres : Option (List String)) (n : Nat) :
    OpResult :=
  if env.ok n RCall.vmQuery then
    let managed := matchedVMs env pres
    if managed.isEmpty then ⟨n + 1, [RCall.vmQuery], none⟩
    else
      let r := destroyLoop env managed (n + 1)
      ⟨r.1, RCall.vmQuery :: r.2, none⟩
  else ⟨n + 1, [RCall.vmQuery], some (.trueNASError
    ("Failed to query VMs: " ++ env.errMsg n RCall.vmQuery))⟩

/-- `VMManager.connect`: a transport failure of `auth.login`, or a `False`
reply, becomes a fatal `TrueNASError` (collapsed into one failure case). -/
def connect (env : Env) (n : Nat) : OpResult :=
  ⟨n + 1, [RCall.authLogin],
    if env.ok n RCall.authLogin then none
    else some (.trueNASError ("Connection failed: " ++ env.errMsg n RCall.authLogin))⟩

/-- `VMManager.disconnect`: if a client exists, run `auth.logout` and
`client.close()` inside one `try`; any exception is caught and logged, so a
`auth.logout` failure jumps to the handler and `client.close()` is never
reached on that path.  The function itself never raises. -/
def disconnect (env : Env) (hasClient : Bool) (n : Nat) : Nat × List RCall :=
  if hasClient then
    if env.ok n RCall.authLogout then (n + 2, [RCall.authLogout, RCall.clientClose])
    else (n + 1, [RCall.authLogout])
  else (n, [])

/-- The structural validation of `load_configuration` (the file and YAML layer is
external I/O): sections `storage`, `controlplane`, `worker` must be present
keys, and `storage` must contain `pool_path` and `cdrom_path`; each check
raises `ValueError`.  Returns the raised exception, if any. -/
def load_configuration (c : Config) : Option PyErr :=
  match c.storage with
  | none => some (.valueError "Missing required configuration section: storage")
  | some s =>
    if (c.getType "controlplane").isNone then
      some (.valueError "Missing required configuration section: controlplane")
    else if (c.getType "worker").isNone then
      some (.valueError "Missing required configuration section: worker")
    else if s.pool_path.isNone then
      some (.valueError "Missing required \x27pool_path\x27 in storage configuration")
    else if s.cdrom_path.isNone then
      some (.valueError "Missing required \x27cdrom_path\x27 in storage configuration")
    else none

/-- The `create` action of `main`: validate the configuration, connect
(inside the `with` block; if `__enter__` raises, `__exit__` never runs),
create the `controlplane` type at base port 5910 and the `worker` type at
base port 5920, and disconnect on every exit path of the `with` body. -/
def run_create (env : Env) (t : Templates) (pw : String) (config : Config) :
    OpResult :=
  match load_configuration config with
  | some e => ⟨0, [], some e⟩
  | none =>
    let c := connect env 0
    match c.err with
    | some e => ⟨c.n, c.calls, some e⟩
    | none =>
      let b1 := create_vm_type env t pw config "controlplane" 5910 c.n
      match b1.err with
      | some e =>
        let (n2, cs) := disconnect env true b1.n
        ⟨n2, c.calls ++ b1.calls ++ cs, some e⟩
      | none =>
        let b2 := create_vm_type env t pw config "worker" 5920 b1.n
        let (n2, cs) := disconnect env true b2.n
        ⟨n2, c.calls ++ b1.calls ++ b2.calls ++ cs, b2.err⟩

/-! ### Reference call sequences

These lists spell out, directly from the template-derivation functions, which
device-attach calls a fully provisioned VM receives and in which order; the
theorems below relate the actual call traces of the operations to them. -/

/-- The NIC attach calls, one per declared `network` entry, in order. -/
def nicCalls (vmId : Nat) (nics : List (String × String)) : List RCall :=
  nics.map fun p => RCall.deviceCreate (create_nic_device vmId p.2)

/-- The disk attach calls, one per declared `disk` entry, in order, with the
zero-based index `idx` embedded in the zvol name. -/
def plannedDiskCalls (vmId : Nat) (name pool : String) :
    List (String × Nat) → Nat → List RCall
  | [], _ => []
  | p :: rest, idx =>
    RCall.deviceCreate (create_disk_device vmId
      (pool ++ "/" ++ name ++ "-disk" ++ toString idx) (p.2 * 1024 ^ 3)) ::
    plannedDiskCalls vmId name pool rest (idx + 1)

/-- The full device-attach call sequence of one VM: display, cdrom, NICs in
declared order, disks in declared order. -/
def plannedCalls (vmId : Nat) (name : String) (vncPort : Nat) (pw cd pool : String)
    (nics : List (String × String)) (disks : List (String × Nat)) : List RCall :=
  RCall.deviceCreate (create_display_device vmId vncPort pw) ::
  RCall.deviceCreate (create_cdrom_device vmId cd) ::
  (nicCalls vmId nics ++ plannedDiskCalls vmId name pool disks 0)

/-- The teardown calls of `destroy_managed_vms`: per matched VM, a poweroff
followed by a delete with `zvols=True, force=True`. -/
def teardownCalls : List VMRec → List RCall
  | [] => []
  | vm :: rest =>
    RCall.vmPoweroff vm.id :: RCall.vmDelete vm.id true true :: teardownCalls rest

/-- Two environments that may differ arbitrarily in the outcomes and error
messages of `vm.delete` calls, and nowhere else. -/
structure EnvAgree (e1 e2 : Env) : Prop where
  createId_eq : e1.createId = e2.createId
  query_eq : e1.query = e2.query
  ok_eq : ∀ n c, c.isDelete = false → e1.ok n c = e2.ok n c
  errMsg_eq : ∀ n c, c.isDelete = false → e1.errMsg n c = e2.errMsg n c

/-! ### Helper lemmas -/

theorem append_take {α : Type} (A B : List α) (k : Nat) :
    A ++ B.take k = (A ++ B).take (A.length + k) := by
  induction A with
  | nil => simp
  | cons a as ih =>
    have h : as.length + 1 + k = (as.length + k) + 1 := by omega
    simp only [List.cons_append, List.length_cons, h, List.take_succ_cons, ih]

theorem isDelete_false_of_isDeviceCreate {c : RCall}
    (h : c.isDeviceCreate = true) : c.isDelete = false := by
  cases c <;> simp_all [RCall.isDeviceCreate, RCall.isDelete]

theorem isVmCreate_false_of_isDeviceCreate {c : RCall}
    (h : c.isDeviceCreate = true) : c.isVmCreate = false := by
  cases c <;> simp_all [RCall.isDeviceCreate, RCall.isVmCreate]

theorem add_device_eq_ok {env : Env} {t : Templates} {dev : Device} {n : Nat}
    (h : env.ok n (RCall.deviceCreate dev) = true) :
    add_device env t dev n = ⟨n + 1, [RCall.deviceCreate dev], none⟩ := by
  simp [add_device, h]

theorem add_device_eq_fail {env : Env} {t : Templates} {dev : Device} {n : Nat}
    (h : env.ok n (RCall.deviceCreate dev) = false) :
    add_device env t dev n = ⟨n + 1, [RCall.deviceCreate dev],
      some (.trueNASError ("Failed to add device " ++ t.dtypeOf dev ++ ": "
        ++ env.errMsg n (RCall.deviceCreate dev)))⟩ := by
  simp [add_device, h]

theorem attachNics_mem (env : Env) (t : Templates) (vmId : Nat) :
    ∀ (nics : List (String × String)) (n : Nat) (c : RCall),
      c ∈ (attachNics env t vmId nics n).calls → c.isDeviceCreate = true := by
  intro nics
  induction nics with
  | nil => intro n c hc; simp [attachNics] at hc
  | cons p rest ih =>
    intro n c hc
    cases h1 : env.ok n (RCall.deviceCreate (create_nic_device vmId p.2))
    · rw [attachNics, add_device_eq_fail h1] at hc
      simp at hc
      simp [hc, RCall.isDeviceCreate]
    · rw [attachNics, add_device_eq_ok h1] at hc
      simp at hc
      rcases hc with hc | hc
      · simp [hc, RCall.isDeviceCreate]
      · exact ih _ _ hc

theorem attachNics_spec (env : Env) (t : Templates) (vmId : Nat) :
    ∀ (nics : List (String × String)) (n : Nat),
      (∃ k, k ≤ (nicCalls vmId nics).length ∧
        (attachNics env t vmId nics n).calls = (nicCalls vmId nics).take k) ∧
      ((attachNics env t vmId nics n).err = none →
        (attachNics env t vmId nics n).calls = nicCalls vmId nics) := by
  intro nics
  induction nics with
  | nil =>
    intro n
    refine ⟨⟨0, by simp, ?_⟩, fun _ => ?_⟩ <;> simp [attachNics, nicCalls]
  | cons p rest ih =>
    intro n
    cases h1 : env.ok n (RCall.deviceCreate (create_nic_device vmId p.2))
    · rw [attachNics, add_device_eq_fail h1]
      refine ⟨⟨1, ?_, ?_⟩, fun h => ?_⟩
      · simp [nicCalls]
      · simp [nicCalls]
      · simp at h
    · rw [attachNics, add_device_eq_ok h1]
      obtain ⟨⟨k, hkb, hk⟩, hfull⟩ := ih (n + 1)
      refine ⟨⟨k + 1, ?_, ?_⟩, fun h => ?_⟩
      · simp [nicCalls] at hkb ⊢; omega
      · simp [nicCalls, hk, List.take_succ_cons]
      · simp at h
        simp [nicCalls, hfull h]

theorem attachDisks_mem (env : Env) (t : Templates) (vmId : Nat)
    (name pool : String) :
    ∀ (disks : List (String × Nat)) (idx n : Nat) (c : RCall),
      c ∈ (attachDisks env t vmId name pool disks idx n).calls →
        c.isDiskCreate = true := by
  intro disks
  induction disks with
  | nil => intro idx n c hc; simp [attachDisks] at hc
  | cons p rest ih =>
    intro idx n c hc
    cases h1 : env.ok n (RCall.deviceCreate (create_disk_device vmId
        (pool ++ "/" ++ name ++ "-disk" ++ toString idx) (p.2 * 1024 ^ 3)))
    · rw [attachDisks, add_device_eq_fail h1] at hc
      simp at hc
      simp [hc, RCall.isDiskCreate, create_disk_device]
    · rw [attachDisks, add_device_eq_ok h1] at hc
      simp at hc
      rcases hc with hc | hc
      · simp [hc, RCall.isDiskCreate, create_disk_device]
      · exact ih _ _ _ hc

theorem attachDisks_spec (env : Env) (t : Templates) (vmId : Nat)
    (name pool : String) :
    ∀ (disks : List (String × Nat)) (idx n : Nat),
      (∃ k, k ≤ (plannedDiskCalls vmId name pool disks idx).length ∧
        (attachDisks env t vmId name pool disks idx n).calls =
          (plannedDiskCalls vmId name pool disks idx).take k) ∧
      ((attachDisks env t vmId name pool disks idx n).err = none →
        (attachDisks env t vmId name pool disks idx n).calls =
          plannedDiskCalls vmId name pool disks idx) := by
  intro disks
  induction disks with
  | nil =>
    intro idx n
    refine ⟨⟨0, by simp, ?_⟩, fun _ => ?_⟩ <;> simp [attachDisks, plannedDiskCalls]
  | cons p rest ih =>
    intro idx n
    cases h1 : env.ok n (RCall.deviceCreate (create_disk_device vmId
        (pool ++ "/" ++ name ++ "-disk" ++ toString idx) (p.2 * 1024 ^ 3)))
    · rw [attachDisks, add_device_eq_fail h1]
      refine ⟨⟨1, ?_, ?_⟩, fun h => ?_⟩
      · simp [plannedDiskCalls]
      · simp [plannedDiskCalls]
      · simp at h
    · rw [attachDisks, add_device_eq_ok h1]
      obtain ⟨⟨k, hkb, hk⟩, hfull⟩ := ih (idx + 1) (n + 1)
      refine ⟨⟨k + 1, ?_, ?_⟩, fun h => ?_⟩
      · simp [plannedDiskCalls] at hkb ⊢; omega
      · simp [plannedDiskCalls, hk, List.take_succ_cons]
      · simp at h
        simp [plannedDiskCalls, hfull h]

theorem take_append_le {α : Type} :
    ∀ (A B : List α) (k : Nat), k ≤ A.length → (A ++ B).take k = A.take k := by
  intro A
  induction A with
  | nil => intro B k hk; rw [Nat.le_zero.mp hk]; simp
  | cons a as ih =>
    intro B k hk
    cases k with
    | zero => simp
    | succ k =>
      simp only [List.cons_append, List.take_succ_cons]
      rw [ih B k (by simpa using hk)]

theorem isDeviceCreate_of_isDiskCreate {c : RCall}
    (h : c.isDiskCreate = true) : c.isDeviceCreate = true := by
  cases c <;> simp_all [RCall.isDiskCreate, RCall.isDeviceCreate]

theorem mem_plannedDiskCalls {vmId : Nat} {name pool : String} :
    ∀ {disks : List (String × Nat)} {idx : Nat} {c : RCall},
      c ∈ plannedDiskCalls vmId name pool disks idx → c.isDiskCreate = true := by
  intro disks
  induction disks with
  | nil => intro idx c hc; simp [plannedDiskCalls] at hc
  | cons p rest ih =>
    intro idx c hc
    simp only [plannedDiskCalls, List.mem_cons] at hc
    rcases hc with hc | hc
    · simp [hc, RCall.isDiskCreate, create_disk_device]
    · exact ih hc

theorem mem_nicCalls {vmId : Nat} {nics : List (String × String)} {c : RCall}
    (hc : c ∈ nicCalls vmId nics) : c.isDeviceCreate = true := by
  simp only [nicCalls, List.mem_map] at hc
  obtain ⟨p, _, hp⟩ := hc
  simp [← hp, RCall.isDeviceCreate]

theorem mem_plannedCalls {vmId : Nat} {name : String} {vncPort : Nat}
    {pw cd pool : String} {nics : List (String × String)}
    {disks : List (String × Nat)} {c : RCall}
    (hc : c ∈ plannedCalls vmId name vncPort pw cd pool nics disks) :
    c.isDeviceCreate = true := by
  simp only [plannedCalls, List.mem_cons, List.mem_append] at hc
  rcases hc with hc | hc | hc | hc
  · simp [hc, RCall.isDeviceCreate]
  · simp [hc, RCall.isDeviceCreate]
  · exact mem_nicCalls hc
  · exact isDeviceCreate_of_isDiskCreate (mem_plannedDiskCalls hc)

theorem devsDisks_mem (env : Env) (t : Templates) (vmId : Nat) (name : String)
    (storage : StorageConfig) (cfg : TypeConfig) (n : Nat) :
    ∀ c ∈ (devsDisks env t vmId name storage cfg n).calls,
      c.isDiskCreate = true := by
  intro c hc
  rw [devsDisks] at hc
  cases hpool : storage.pool_path with
  | none => simp only [hpool] at hc; simp at hc
  | some pool =>
    simp only [hpool] at hc
    cases hdisk : cfg.disk with
    | none => simp only [hdisk] at hc; simp at hc
    | some disks =>
      simp only [hdisk] at hc
      exact attachDisks_mem env t vmId name pool disks 0 n c hc

theorem devsNet_mem (env : Env) (t : Templates) (vmId : Nat) (name : String)
    (storage : StorageConfig) (cfg : TypeConfig) (n : Nat) :
    ∀ c ∈ (devsNet env t vmId name storage cfg n).calls,
      c.isDeviceCreate = true := by
  intro c hc
  rw [devsNet] at hc
  cases hnet : cfg.network with
  | none => simp only [hnet] at hc; simp at hc
  | some nics =>
    simp only [hnet] at hc
    cases h3 : (attachNics env t vmId nics n).err with
    | some e =>
      simp only [h3] at hc
      exact attachNics_mem env t vmId nics n c hc
    | none =>
      simp only [h3] at hc
      simp only [List.mem_append] at hc
      rcases hc with hc | hc
      · exact attachNics_mem env t vmId nics n c hc
      · exact isDeviceCreate_of_isDiskCreate
          (devsDisks_mem env t vmId name storage cfg _ c hc)

theorem devsCdrom_mem (env : Env) (t : Templates) (vmId : Nat) (name : String)
    (storage : StorageConfig) (cfg : TypeConfig) (n : Nat) :
    ∀ c ∈ (devsCdrom env t vmId name storage cfg n).calls,
      c.isDeviceCreate = true := by
  intro c hc
  rw [devsCdrom] at hc
  cases hcd : storage.cdrom_path with
  | none => simp only [hcd] at hc; simp at hc
  | some cd =>
    simp only [hcd] at hc
    cases h2 : env.ok n (RCall.deviceCreate (create_cdrom_device vmId cd))
    · simp only [add_device_eq_fail h2] at hc
      simp at hc
      simp [hc, RCall.isDeviceCreate]
    · simp only [add_device_eq_ok h2] at hc
      simp only [List.singleton_append, List.mem_cons] at hc
      rcases hc with hc | hc
      · simp [hc, RCall.isDeviceCreate]
      · exact devsNet_mem env t vmId name storage cfg _ c hc

theorem create_vm_devices_mem (env : Env) (t : Templates) (vmId : Nat)
    (name : String) (cfg : TypeConfig) (vncPort : Nat) (storage : StorageConfig)
    (pw : String) (n : Nat) :
    ∀ c ∈ (create_vm_devices env t vmId name cfg vncPort storage pw n).calls,
      c.isDeviceCreate = true := by
  intro c hc
  rw [create_vm_devices] at hc
  cases h1 : env.ok n (RCall.deviceCreate (create_display_device vmId vncPort pw))
  · simp only [add_device_eq_fail h1] at hc
    simp at hc
    simp [hc, RCall.isDeviceCreate]
  · simp only [add_device_eq_ok h1] at hc
    simp only [List.singleton_append, List.mem_cons] at hc
    rcases hc with hc | hc
    · simp [hc, RCall.isDeviceCreate]
    · exact devsCdrom_mem env t vmId name storage cfg _ c hc

theorem devsDisks_spec (env : Env) (t : Templates) (vmId : Nat) (name : String)
    (storage : StorageConfig) (cfg : TypeConfig) (n : Nat)
    {pool : String} {disks : List (String × Nat)}
    (hpool : storage.pool_path = some pool) (hdisk : cfg.disk = some disks) :
    (∃ k, k ≤ (plannedDiskCalls vmId name pool disks 0).length ∧
      (devsDisks env t vmId name storage cfg n).calls =
        (plannedDiskCalls vmId name pool disks 0).take k) ∧
    ((devsDisks env t vmId name storage cfg n).err = none →
      (devsDisks env t vmId name storage cfg n).calls =
        plannedDiskCalls vmId name pool disks 0) := by
  rw [devsDisks, hpool, hdisk]
  exact attachDisks_spec env t vmId name pool disks 0 n

theorem devsNet_spec (env : Env) (t : Templates) (vmId : Nat) (name : String)
    (storage : StorageConfig) (cfg : TypeConfig) (n : Nat)
    {pool : String} {disks : List (String × Nat)}
    {nics : List (String × String)}
    (hpool : storage.pool_path = some pool) (hdisk : cfg.disk = some disks)
    (hnet : cfg.network = some nics) :
    (∃ k, (devsNet env t vmId name storage cfg n).calls =
      (nicCalls vmId nics ++ plannedDiskCalls vmId name pool disks 0).take k) ∧
    ((devsNet env t vmId name storage cfg n).err = none →
      (devsNet env t vmId name storage cfg n).calls =
        nicCalls vmId nics ++ plannedDiskCalls vmId name pool disks 0) := by
  obtain ⟨⟨k3, hk3b, hk3⟩, hfull3⟩ := attachNics_spec env t vmId nics n
  cases h3 : (attachNics env t vmId nics n).err with
  | some e =>
    constructor
    · refine ⟨k3, ?_⟩
      simp only [devsNet, hnet, h3]
      rw [hk3, take_append_le _ _ _ hk3b]
    · intro h
      simp only [devsNet, hnet, h3] at h
      simp at h
  | none =>
    obtain ⟨⟨k4, hk4b, hk4⟩, hfull4⟩ := devsDisks_spec env t vmId name storage cfg
      ((attachNics env t vmId nics n).n) hpool hdisk
    have hn3 := hfull3 h3
    cases h4 : (devsDisks env t vmId name storage cfg
        ((attachNics env t vmId nics n).n)).err with
    | some e =>
      constructor
      · refine ⟨(nicCalls vmId nics).length + k4, ?_⟩
        simp only [devsNet, hnet, h3]
        rw [hn3, hk4, append_take]
      · intro h
        simp only [devsNet, hnet, h3, h4] at h
        simp at h
    | none =>
      constructor
      · refine ⟨(nicCalls vmId nics ++
          plannedDiskCalls vmId name pool disks 0).length, ?_⟩
        simp only [devsNet, hnet, h3]
        rw [hn3, hfull4 h4, List.take_length]
      · intro _
        simp only [devsNet, hnet, h3]
        rw [hn3, hfull4 h4]

theorem devsCdrom_spec (env : Env) (t : Templates) (vmId : Nat) (name : String)
    (storage : StorageConfig) (cfg : TypeConfig) (n : Nat)
    {pool cd : String} {disks : List (String × Nat)}
    {nics : List (String × String)}
    (hpool : storage.pool_path = some pool) (hdisk : cfg.disk = some disks)
    (hnet : cfg.network = some nics) (hcd : storage.cdrom_path = some cd) :
    (∃ k, (devsCdrom env t vmId name storage cfg n).calls =
      (RCall.deviceCreate (create_cdrom_device vmId cd) ::
        (nicCalls vmId nics ++ plannedDiskCalls vmId name pool disks 0)).take k) ∧
    ((devsCdrom env t vmId name storage cfg n).err = none →
      (devsCdrom env t vmId name storage cfg n).calls =
        RCall.deviceCreate (create_cdrom_device vmId cd) ::
          (nicCalls vmId nics ++ plannedDiskCalls vmId name pool disks 0)) := by
  cases h2 : env.ok n (RCall.deviceCreate (create_cdrom_device vmId cd)) with
  | false =>
    constructor
    · refine ⟨1, ?_⟩
      simp only [devsCdrom, hcd, add_device_eq_fail h2]
      simp
    · intro h
      simp only [devsCdrom, hcd, add_device_eq_fail h2] at h
      simp at h
  | true =>
    obtain ⟨⟨k, hk⟩, hfull⟩ := devsNet_spec env t vmId name storage cfg (n + 1)
      hpool hdisk hnet
    cases h3 : (devsNet env t vmId name storage cfg (n + 1)).err with
    | some e =>
      constructor
      · refine ⟨k + 1, ?_⟩
        simp only [devsCdrom, hcd, add_device_eq_ok h2]
        simp only [List.take_succ_cons, List.singleton_append]
        rw [hk]
      · intro h
        simp only [devsCdrom, hcd, add_device_eq_ok h2, h3] at h
        simp at h
    | none =>
      constructor
      · refine ⟨(nicCalls vmId nics ++
          plannedDiskCalls vmId name pool disks 0).length + 1, ?_⟩
        simp only [devsCdrom, hcd, add_device_eq_ok h2]
        simp only [List.take_succ_cons, List.singleton_append]
        rw [hfull h3, List.take_length]
      · intro _
        simp only [devsCdrom, hcd, add_device_eq_ok h2]
        simp only [List.singleton_append]
        rw [hfull h3]

theorem create_vm_devices_spec (env : Env) (t : Templates) (vmId : Nat)
    (name : String) (cfg : TypeConfig) (vncPort : Nat) (storage : StorageConfig)
    (pw : String) (n : Nat)
    {pool cd : String} {disks : List (String × Nat)}
    {nics : List (String × String)}
    (hpool : storage.pool_path = some pool) (hdisk : cfg.disk = some disks)
    (hnet : cfg.network = some nics) (hcd : storage.cdrom_path = some cd) :
    (∃ k, (create_vm_devices env t vmId name cfg vncPort storage pw n).calls =
      (plannedCalls vmId name vncPort pw cd pool nics disks).take k) ∧
    ((create_vm_devices env t vmId name cfg vncPort storage pw n).err = none →
      (create_vm_devices env t vmId name cfg vncPort storage pw n).calls =
        plannedCalls vmId name vncPort pw cd pool nics disks) := by
  cases h1 : env.ok n (RCall.deviceCreate (create_display_device vmId vncPort pw)) with
  | false =>
    constructor
    · refine ⟨1, ?_⟩
      simp only [create_vm_devices, add_device_eq_fail h1]
      simp [plannedCalls]
    · intro h
      simp only [create_vm_devices, add_device_eq_fail h1] at h
      simp at h
  | true =>
    obtain ⟨⟨k, hk⟩, hfull⟩ := devsCdrom_spec env t vmId name storage cfg (n + 1)
      hpool hdisk hnet hcd
    cases h2 : (devsCdrom env t vmId name storage cfg (n + 1)).err with
    | some e =>
      constructor
      · refine ⟨k + 1, ?_⟩
        simp only [create_vm_devices, add_device_eq_ok h1]
        simp only [plannedCalls, List.take_succ_cons, List.singleton_append]
        rw [hk]
      · intro h
        simp only [create_vm_devices, add_device_eq_ok h1, h2] at h
        simp at h
    | none =>
      constructor
      · refine ⟨(RCall.deviceCreate (create_cdrom_device vmId cd) ::
          (nicCalls vmId nics ++ plannedDiskCalls vmId name pool disks 0)).length
            + 1, ?_⟩
        simp only [create_vm_devices, add_device_eq_ok h1]
        simp only [plannedCalls, List.take_succ_cons, List.singleton_append]
        rw [hfull h2, List.take_length]
      · intro _
        simp only [create_vm_devices, add_device_eq_ok h1]
        simp only [plannedCalls, List.singleton_append]
        rw [hfull h2]

theorem configure_mem (env : Env) (t : Templates) (vmId : Nat) (name : String)
    (cfg : TypeConfig) (vncPort : Nat) (storage : StorageConfig) (pw : String)
    (n : Nat) :
    ∀ c ∈ (configure_and_start env t vmId name cfg vncPort storage pw n).calls,
      c.isDeviceCreate = true ∨ c = RCall.vmStart vmId := by
  intro c hc
  rw [configure_and_start] at hc
  cases herr : (create_vm_devices env t vmId name cfg vncPort storage pw n).err with
  | some e =>
    simp only [herr] at hc
    exact Or.inl (create_vm_devices_mem env t vmId name cfg vncPort storage pw n c hc)
  | none =>
    simp only [herr] at hc
    simp only [List.mem_append, List.mem_singleton] at hc
    rcases hc with hc | hc
    · exact Or.inl (create_vm_devices_mem env t vmId name cfg vncPort storage pw n c hc)
    · exact Or.inr hc

theorem configure_countP_isDelete (env : Env) (t : Templates) (vmId : Nat)
    (name : String) (cfg : TypeConfig) (vncPort : Nat) (storage : StorageConfig)
    (pw : String) (n : Nat) :
    (configure_and_start env t vmId name cfg vncPort storage pw n).calls.countP
      RCall.isDelete = 0 := by
  rw [List.countP_eq_zero]
  intro c hc
  rcases configure_mem env t vmId name cfg vncPort storage pw n c hc with h | h
  · simp [isDelete_false_of_isDeviceCreate h]
  · simp [h, RCall.isDelete]

theorem configure_countP_isVmCreate (env : Env) (t : Templates) (vmId : Nat)
    (name : String) (cfg : TypeConfig) (vncPort : Nat) (storage : StorageConfig)
    (pw : String) (n : Nat) :
    (configure_and_start env t vmId name cfg vncPort storage pw n).calls.countP
      RCall.isVmCreate = 0 := by
  rw [List.countP_eq_zero]
  intro c hc
  rcases configure_mem env t vmId name cfg vncPort storage pw n c hc with h | h
  · simp [isVmCreate_false_of_isDeviceCreate h]
  · simp [h, RCall.isVmCreate]

theorem configure_spec (env : Env) (t : Templates) (vmId : Nat) (name : String)
    (cfg : TypeConfig) (vncPort : Nat) (storage : StorageConfig) (pw : String)
    (n : Nat) {pool cd : String} {disks : List (String × Nat)}
    {nics : List (String × String)}
    (hpool : storage.pool_path = some pool) (hdisk : cfg.disk = some disks)
    (hnet : cfg.network = some nics) (hcd : storage.cdrom_path = some cd) :
    ((configure_and_start env t vmId name cfg vncPort storage pw n).err = none →
      (configure_and_start env t vmId name cfg vncPort storage pw n).calls =
        plannedCalls vmId name vncPort pw cd pool nics disks
          ++ [RCall.vmStart vmId]) ∧
    ((∃ k, (configure_and_start env t vmId name cfg vncPort storage pw n).calls =
        (plannedCalls vmId name vncPort pw cd pool nics disks).take k) ∨
     (configure_and_start env t vmId name cfg vncPort storage pw n).calls =
        plannedCalls vmId name vncPort pw cd pool nics disks
          ++ [RCall.vmStart vmId]) := by
  obtain ⟨⟨k, hk⟩, hfull⟩ := create_vm_devices_spec env t vmId name cfg vncPort
    storage pw n hpool hdisk hnet hcd
  cases herr : (create_vm_devices env t vmId name cfg vncPort storage pw n).err with
  | some e =>
    constructor
    · intro h
      simp only [configure_and_start, herr] at h
      simp at h
    · refine Or.inl ⟨k, ?_⟩
      simp only [configure_and_start, herr]
      exact hk
  | none =>
    constructor
    · intro _
      simp only [configure_and_start, herr]
      rw [hfull herr]
    · refine Or.inr ?_
      simp only [configure_and_start, herr]
      rw [hfull herr]

theorem create_single_vm_err_classify (env : Env) (t : Templates) (name : String)
    (cfg : TypeConfig) (vncPort : Nat) (storage : StorageConfig) (pw : String)
    (n : Nat) {cpu mem : Nat}
    (hcpu : cfg.cpu = some cpu) (hmem : cfg.memory = some mem) :
    (create_single_vm env t name cfg vncPort storage pw n).err = none ∨
    ∃ m, (create_single_vm env t name cfg vncPort storage pw n).err =
      some (.trueNASError m) := by
  rw [create_single_vm]
  simp only [hcpu, hmem]
  cases hok : env.ok n (RCall.vmCreate name cpu cpu mem) with
  | false => simp
  | true =>
    simp only [if_true]
    cases herr : (configure_and_start env t (env.createId n) name cfg vncPort
        storage pw (n + 1)).err with
    | some e => simp [herr]
    | none => simp [herr]

theorem create_single_vm_one_create (env : Env) (t : Templates) (name : String)
    (cfg : TypeConfig) (vncPort : Nat) (storage : StorageConfig) (pw : String)
    (n : Nat) {cpu mem : Nat}
    (hcpu : cfg.cpu = some cpu) (hmem : cfg.memory = some mem) :
    (create_single_vm env t name cfg vncPort storage pw n).calls.countP
      RCall.isVmCreate = 1 := by
  rw [create_single_vm]
  simp only [hcpu, hmem]
  cases hok : env.ok n (RCall.vmCreate name cpu cpu mem) with
  | false => simp [List.countP_cons, RCall.isVmCreate]
  | true =>
    simp only [if_true]
    cases herr : (configure_and_start env t (env.createId n) name cfg vncPort
        storage pw (n + 1)).err with
    | some e =>
      simp only [herr]
      simp [List.countP_cons, List.countP_append, RCall.isVmCreate,
        configure_countP_isVmCreate]
    | none =>
      simp only [herr]
      simp [List.countP_cons, RCall.isVmCreate, configure_countP_isVmCreate]

theorem create_single_vm_success_calls (env : Env) (t : Templates) (name : String)
    (cfg : TypeConfig) (vncPort : Nat) (storage : StorageConfig) (pw : String)
    (n : Nat) {cpu mem : Nat} {pool cd : String} {disks : List (String × Nat)}
    {nics : List (String × String)}
    (hcpu : cfg.cpu = some cpu) (hmem : cfg.memory = some mem)
    (hpool : storage.pool_path = some pool) (hdisk : cfg.disk = some disks)
    (hnet : cfg.network = some nics) (hcd : storage.cdrom_path = some cd)
    (hsucc : (create_single_vm env t name cfg vncPort storage pw n).err = none) :
    (create_single_vm env t name cfg vncPort storage pw n).calls =
      RCall.vmCreate name cpu cpu mem ::
        (plannedCalls (env.createId n) name vncPort pw cd pool nics disks
          ++ [RCall.vmStart (env.createId n)]) := by
  rw [create_single_vm] at hsucc ⊢
  simp only [hcpu, hmem] at hsucc ⊢
  cases hok : env.ok n (RCall.vmCreate name cpu cpu mem) with
  | false => simp [hok] at hsucc
  | true =>
    simp only [hok, if_true] at hsucc ⊢
    obtain ⟨hfull, _⟩ := configure_spec env t (env.createId n) name cfg vncPort
      storage pw (n + 1) hpool hdisk hnet hcd
    cases herr : (configure_and_start env t (env.createId n) name cfg vncPort
        storage pw (n + 1)).err with
    | some e => simp [herr] at hsucc
    | none =>
      simp only [herr]
      rw [hfull herr]

theorem isDelete_vmStart (i : Nat) : (RCall.vmStart i).isDelete = false := rfl

theorem isDelete_vmCreate (s : String) (a b c : Nat) :
    (RCall.vmCreate s a b c).isDelete = false := rfl

theorem isDelete_deviceCreate (d : Device) :
    (RCall.deviceCreate d).isDelete = false := rfl

theorem add_device_agree {e1 e2 : Env} (h : EnvAgree e1 e2) (t : Templates)
    (dev : Device) (n : Nat) : add_device e1 t dev n = add_device e2 t dev n := by
  rw [add_device, add_device, h.ok_eq n _ (isDelete_deviceCreate dev),
    h.errMsg_eq n _ (isDelete_deviceCreate dev)]

theorem attachNics_agree {e1 e2 : Env} (h : EnvAgree e1 e2) (t : Templates)
    (vmId : Nat) : ∀ (nics : List (String × String)) (n : Nat),
    attachNics e1 t vmId nics n = attachNics e2 t vmId nics n := by
  intro nics
  induction nics with
  | nil => intro n; rfl
  | cons p rest ih => intro n; simp only [attachNics, add_device_agree h, ih]

theorem attachDisks_agree {e1 e2 : Env} (h : EnvAgree e1 e2) (t : Templates)
    (vmId : Nat) (name pool : String) :
    ∀ (disks : List (String × Nat)) (idx n : Nat),
    attachDisks e1 t vmId name pool disks idx n =
      attachDisks e2 t vmId name pool disks idx n := by
  intro disks
  induction disks with
  | nil => intro idx n; rfl
  | cons p rest ih => intro idx n; simp only [attachDisks, add_device_agree h, ih]

theorem devsDisks_agree {e1 e2 : Env} (h : EnvAgree e1 e2) (t : Templates)
    (vmId : Nat) (name : String) (storage : StorageConfig) (cfg : TypeConfig)
    (n : Nat) :
    devsDisks e1 t vmId name storage cfg n = devsDisks e2 t vmId name storage cfg n := by
  simp only [devsDisks, attachDisks_agree h]

theorem devsNet_agree {e1 e2 : Env} (h : EnvAgree e1 e2) (t : Templates)
    (vmId : Nat) (name : String) (storage : StorageConfig) (cfg : TypeConfig)
    (n : Nat) :
    devsNet e1 t vmId name storage cfg n = devsNet e2 t vmId name storage cfg n := by
  simp only [devsNet, attachNics_agree h, devsDisks_agree h]

theorem devsCdrom_agree {e1 e2 : Env} (h : EnvAgree e1 e2) (t : Templates)
    (vmId : Nat) (name : String) (storage : StorageConfig) (cfg : TypeConfig)
    (n : Nat) :
    devsCdrom e1 t vmId name storage cfg n = devsCdrom e2 t vmId name storage cfg n := by
  simp only [devsCdrom, add_device_agree h, devsNet_agree h]

theorem create_vm_devices_agree {e1 e2 : Env} (h : EnvAgree e1 e2) (t : Templates)
    (vmId : Nat) (name : String) (cfg : TypeConfig) (vncPort : Nat)
    (storage : StorageConfig) (pw : String) (n : Nat) :
    create_vm_devices e1 t vmId name cfg vncPort storage pw n =
      create_vm_devices e2 t vmId name cfg vncPort storage pw n := by
  simp only [create_vm_devices, add_device_agree h, devsCdrom_agree h]

theorem configure_agree {e1 e2 : Env} (h : EnvAgree e1 e2) (t : Templates)
    (vmId : Nat) (name : String) (cfg : TypeConfig) (vncPort : Nat)
    (storage : StorageConfig) (pw : String) (n : Nat) :
    configure_and_start e1 t vmId name cfg vncPort storage pw n =
      configure_and_start e2 t vmId name cfg vncPort storage pw n := by
  have hok : ∀ m, e1.ok m (RCall.vmStart vmId) = e2.ok m (RCall.vmStart vmId) :=
    fun m => h.ok_eq m _ (isDelete_vmStart vmId)
  have hmsg : ∀ m, e1.errMsg m (RCall.vmStart vmId) = e2.errMsg m (RCall.vmStart vmId) :=
    fun m => h.errMsg_eq m _ (isDelete_vmStart vmId)
  simp only [configure_and_start, create_vm_devices_agree h, hok, hmsg]

theorem create_single_vm_agree {e1 e2 : Env} (h : EnvAgree e1 e2) (t : Templates)
    (name : String) (cfg : TypeConfig) (vncPort : Nat) (storage : StorageConfig)
    (pw : String) (n : Nat) :
    create_single_vm e1 t name cfg vncPort storage pw n =
      create_single_vm e2 t name cfg vncPort storage pw n := by
  have hok : ∀ m s a b c, e1.ok m (RCall.vmCreate s a b c) =
      e2.ok m (RCall.vmCreate s a b c) :=
    fun m s a b c => h.ok_eq m _ (isDelete_vmCreate s a b c)
  have hmsg : ∀ m s a b c, e1.errMsg m (RCall.vmCreate s a b c) =
      e2.errMsg m (RCall.vmCreate s a b c) :=
    fun m s a b c => h.errMsg_eq m _ (isDelete_vmCreate s a b c)
  cases hcpu : cfg.cpu with
  | none => simp only [create_single_vm, hcpu]
  | some cpu =>
    cases hmem : cfg.memory with
    | none => simp only [create_single_vm, hcpu, hmem]
    | some mem =>
      simp only [create_single_vm, hcpu, hmem, hok, hmsg, h.createId_eq,
        configure_agree h]

theorem createLoop_spec (env : Env) (t : Templates) (pw : String)
    (vmType : String) (vncStartPort : Nat) (cfg : TypeConfig)
    (storage : StorageConfig) {cpu mem : Nat}
    (hcpu : cfg.cpu = some cpu) (hmem : cfg.memory = some mem) :
    ∀ (rem idx n : Nat),
      (createLoop env t pw vmType vncStartPort cfg storage rem idx n).attempts = rem ∧
      (createLoop env t pw vmType vncStartPort cfg storage rem idx n).err = none ∧
      (createLoop env t pw vmType vncStartPort cfg storage rem idx n).calls.countP
        RCall.isVmCreate = rem := by
  intro rem
  induction rem with
  | zero => intro idx n; exact ⟨rfl, rfl, by simp [createLoop]⟩
  | succ rem ih =>
    intro idx n
    rcases create_single_vm_err_classify env t (vmType ++ padTwo (idx + 1)) cfg
        (vncStartPort + idx + 1) storage pw n hcpu hmem with hnone | ⟨m, hsome⟩
    · obtain ⟨ha, he, hc⟩ := ih (idx + 1)
        (create_single_vm env t (vmType ++ padTwo (idx + 1)) cfg
          (vncStartPort + idx + 1) storage pw n).n
      refine ⟨?_, ?_, ?_⟩ <;>
        simp only [createLoop, hnone, ha, he, hc, List.countP_append]
      rw [create_single_vm_one_create env t _ cfg _ storage pw n hcpu hmem]
      omega
    · obtain ⟨ha, he, hc⟩ := ih (idx + 1)
        (create_single_vm env t (vmType ++ padTwo (idx + 1)) cfg
          (vncStartPort + idx + 1) storage pw n).n
      refine ⟨?_, ?_, ?_⟩ <;>
        simp only [createLoop, hsome, ha, he, hc, List.countP_append]
      rw [create_single_vm_one_create env t _ cfg _ storage pw n hcpu hmem]
      omega

theorem destroyLoop_calls (env : Env) :
    ∀ (l : List VMRec) (n : Nat), (destroyLoop env l n).2 = teardownCalls l := by
  intro l
  induction l with
  | nil => intro n; rfl
  | cons vm rest ih => intro n; simp only [destroyLoop, teardownCalls, ih]

theorem teardownCalls_mem {vm : VMRec} :
    ∀ {l : List VMRec}, vm ∈ l →
      RCall.vmPoweroff vm.id ∈ teardownCalls l ∧
      RCall.vmDelete vm.id true true ∈ teardownCalls l := by
  intro l
  induction l with
  | nil => intro h; simp at h
  | cons w rest ih =>
    intro h
    rcases List.mem_cons.mp h with h | h
    · subst h; simp [teardownCalls]
    · obtain ⟨h1, h2⟩ := ih h
      simp only [teardownCalls, List.mem_cons]
      exact ⟨Or.inr (Or.inr h1), Or.inr (Or.inr h2)⟩

theorem destroy_char (env : Env) (pres : Option (List String)) (n : Nat)
    (hq : env.ok n RCall.vmQuery = true) :
    (destroy_managed_vms env pres n).calls =
      RCall.vmQuery :: teardownCalls (matchedVMs env pres) ∧
    (destroy_managed_vms env pres n).err = none := by
  by_cases he : (matchedVMs env pres).isEmpty
  · have hnil : matchedVMs env pres = [] := List.isEmpty_iff.mp he
    constructor <;> simp [destroy_managed_vms, hq, he, hnil, teardownCalls]
  · constructor <;> simp [destroy_managed_vms, hq, he, destroyLoop_calls]

theorem plannedDiskCalls_get (vmId : Nat) (name pool : String) :
    ∀ (disks : List (String × Nat)) (idx i : Nat),
      (plannedDiskCalls vmId name pool disks idx).get? i =
        (disks.get? i).map fun p => RCall.deviceCreate (create_disk_device vmId
          (pool ++ "/" ++ name ++ "-disk" ++ toString (idx + i))
          (p.2 * 1024 ^ 3)) := by
  intro disks
  induction disks with
  | nil => intro idx i; simp [plannedDiskCalls]
  | cons p rest ih =>
    intro idx i
    cases i with
    | zero => simp [plannedDiskCalls]
    | succ i =>
      simp only [plannedDiskCalls, List.get?_cons_succ]
      rw [ih (idx + 1) i]
      have harith : idx + 1 + i = idx + (i + 1) := by omega
      rw [harith]

theorem mem_nicCalls_not_disk {vmId : Nat} {nics : List (String × String)}
    {c : RCall} (hc : c ∈ nicCalls vmId nics) : c.isDiskCreate = false := by
  simp only [nicCalls, List.mem_map] at hc
  obtain ⟨p, _, hp⟩ := hc
  simp [← hp, RCall.isDiskCreate, create_nic_device]

theorem filter_isDiskCreate_nicCalls (vmId : Nat) (nics : List (String × String)) :
    (nicCalls vmId nics).filter RCall.isDiskCreate = [] := by
  rw [List.filter_eq_nil_iff]
  intro c hc
  simp [mem_nicCalls_not_disk hc]

theorem filter_isDiskCreate_plannedDiskCalls (vmId : Nat) (name pool : String)
    (disks : List (String × Nat)) (idx : Nat) :
    (plannedDiskCalls vmId name pool disks idx).filter RCall.isDiskCreate =
      plannedDiskCalls vmId name pool disks idx := by
  rw [List.filter_eq_self]
  intro c hc
  simp [mem_plannedDiskCalls hc]

theorem filter_isDeviceCreate_take_planned (vmId : Nat) (name : String)
    (vncPort : Nat) (pw cd pool : String) (nics : List (String × String))
    (disks : List (String × Nat)) (k : Nat) :
    ((plannedCalls vmId name vncPort pw cd pool nics disks).take k).filter
        RCall.isDeviceCreate =
      (plannedCalls vmId name vncPort pw cd pool nics disks).take k := by
  rw [List.filter_eq_self]
  intro c hc
  simp [mem_plannedCalls (List.take_subset k _ hc)]

/-! ### Concrete fixtures used by witnesses and counterexamples -/

/-- A template set whose device documents carry these `dtype` strings. -/
def tmpl0 : Templates := ⟨"DISPLAY", "CDROM", "NIC", "DISK"⟩

/-- An environment in which every remote call succeeds. -/
def envAllOk : Env :=
  { ok := fun _ _ => true, errMsg := fun _ _ => "boom",
    createId := fun n => 100 + n, query := [] }

/-- An environment in which only the very first remote call succeeds (so a
`vm.create` issued first succeeds and the following display attach fails). -/
def envFailDisplay : Env :=
  { ok := fun n _ => n == 0, errMsg := fun _ _ => "boom",
    createId := fun _ => 7, query := [] }

/-- An environment in which `auth.logout` raises and every other call
succeeds. -/
def envLogoutFails : Env :=
  { ok := fun _ c => match c with | .authLogout => false | _ => true,
    errMsg := fun _ _ => "socket closed", createId := fun _ => 0, query := [] }

/-- A complete storage section. -/
def storageOk : StorageConfig := ⟨some "tank/vms", some "/mnt/iso/boot.iso", 0⟩

/-- A complete type section requesting two instances. -/
def tcFull : TypeConfig :=
  ⟨some 2, some 2, some 4294967296, some [("net0", "br0")], some [("os", 10)], 0⟩

/-- A type section with two instances requested but no `cpu` key. -/
def tcNoCpu : TypeConfig :=
  ⟨some 2, none, some 4294967296, some [("net0", "br0")], some [("os", 10)], 0⟩

/-- A type section with one instance requested but no `network` key. -/
def tcNoNet : TypeConfig :=
  ⟨some 1, some 2, some 4294967296, none, some [("os", 10)], 0⟩

/-- A type section whose only key is `count: 0`. -/
def tcZero : TypeConfig := ⟨some 0, none, none, none, none, 0⟩

/-- A present but empty type section (an empty mapping, hence falsy). -/
def tcEmpty : TypeConfig := ⟨none, none, none, none, none, 0⟩

/-- A complete type section except that the `count` key is absent. -/
def tcNoCount : TypeConfig :=
  ⟨none, some 2, some 4294967296, some [("net0", "br0")], some [("os", 10)], 0⟩

/-- A full configuration. -/
def cfgOk : Config := ⟨some storageOk, [("controlplane", tcFull), ("worker", tcFull)]⟩

/-- A configuration whose controlplane section lacks `cpu`. -/
def cfgNoCpu : Config :=
  ⟨some storageOk, [("controlplane", tcNoCpu), ("worker", tcZero)]⟩

/-- A configuration whose controlplane section lacks `network`. -/
def cfgNoNet : Config :=
  ⟨some storageOk, [("controlplane", tcNoNet), ("worker", tcZero)]⟩

/-- A configuration whose worker section is present but empty. -/
def cfgEmptyWorker : Config :=
  ⟨some storageOk, [("controlplane", tcZero), ("worker", tcEmpty)]⟩

/-- A configuration whose storage section lacks `pool_path`. -/
def cfgNoPool : Config :=
  ⟨some ⟨none, some "/mnt/iso/boot.iso", 0⟩,
    [("controlplane", tcFull), ("worker", tcFull)]⟩

/-- A configuration whose type section lacks `count` (for the C10 witness). -/
def cfgNoCount : Config :=
  ⟨some storageOk, [("controlplane", tcZero), ("worker", tcNoCount)]⟩

/-! ### Claim theorems -/

theorem isDeviceCreate_vmCreate (s : String) (a b c : Nat) :
    (RCall.vmCreate s a b c).isDeviceCreate = false := rfl

theorem isDeviceCreate_vmStart (i : Nat) :
    (RCall.vmStart i).isDeviceCreate = false := rfl

theorem isDeviceCreate_vmDelete (i : Nat) (z f : Bool) :
    (RCall.vmDelete i z f).isDeviceCreate = false := rfl

theorem isDelete_vmDelete (i : Nat) (z f : Bool) :
    (RCall.vmDelete i z f).isDelete = true := rfl

/-- Claim C1: in `_create_single_vm`, the cleanup call
`vm.delete(vm_id, zvols=True, force=True)` is issued exactly once if and
only if the remote `vm.create` call succeeded and the subsequent
device-attach/start phase raised a failure; if `vm.create` itself fails, the
operation aborts immediately with the `vm.create` call as its only remote
call, so no delete is issued. -/
theorem create_single_vm_delete_iff (env : Env) (t : Templates) (name : String)
    (cfg : TypeConfig) (vncPort : Nat) (storage : StorageConfig) (pw : String)
    (n cpu mem : Nat) (nics : List (String × String))
    (disks : List (String × Nat)) (pool cd : String)
    (hcpu : cfg.cpu = some cpu) (hmem : cfg.memory = some mem)
    (_hnet : cfg.network = some nics) (_hdisk : cfg.disk = some disks)
    (_hpool : storage.pool_path = some pool) (_hcd : storage.cdrom_path = some cd) :
    ((create_single_vm env t name cfg vncPort storage pw n).calls.countP
        RCall.isDelete = 1 ↔
      (env.ok n (RCall.vmCreate name cpu cpu mem) = true ∧
       (configure_and_start env t (env.createId n) name cfg vncPort storage pw
          (n + 1)).err.isSome = true)) ∧
    (env.ok n (RCall.vmCreate name cpu cpu mem) = false →
      (create_single_vm env t name cfg vncPort storage pw n).calls =
        [RCall.vmCreate name cpu cpu mem]) := by
  rw [create_single_vm]
  simp only [hcpu, hmem]
  cases hok : env.ok n (RCall.vmCreate name cpu cpu mem) with
  | false =>
    refine ⟨?_, fun _ => by simp⟩
    simp [List.countP_cons, isDelete_vmCreate]
  | true =>
    refine ⟨?_, fun h => by simp at h⟩
    cases herr : (configure_and_start env t (env.createId n) name cfg vncPort
        storage pw (n + 1)).err with
    | none =>
      simp only [if_true, herr]
      simp [List.countP_cons, isDelete_vmCreate,
        configure_countP_isDelete, herr]
    | some e =>
      simp only [if_true, herr]
      simp [List.countP_cons, List.countP_append, isDelete_vmCreate,
        isDelete_vmDelete, configure_countP_isDelete, herr]

/-- Witness for C1 at a concrete input: `vm.create` succeeds, the display
attach then fails, so the phase error is present and exactly one delete
occurs. -/
theorem create_single_vm_delete_iff_witness :
    ((create_single_vm envFailDisplay tmpl0 "controlplane01" tcFull 5911
        storageOk "pw" 0).calls.countP RCall.isDelete = 1 ↔
      (envFailDisplay.ok 0 (RCall.vmCreate "controlplane01" 2 2 4294967296) = true ∧
       (configure_and_start envFailDisplay tmpl0 (envFailDisplay.createId 0)
          "controlplane01" tcFull 5911 storageOk "pw" (0 + 1)).err.isSome = true)) ∧
    (envFailDisplay.ok 0 (RCall.vmCreate "controlplane01" 2 2 4294967296) = false →
      (create_single_vm envFailDisplay tmpl0 "controlplane01" tcFull 5911
        storageOk "pw" 0).calls =
          [RCall.vmCreate "controlplane01" 2 2 4294967296]) :=
  create_single_vm_delete_iff envFailDisplay tmpl0 "controlplane01" tcFull 5911
    storageOk "pw" 0 2 4294967296 [("net0", "br0")] [("os", 10)] "tank/vms"
    "/mnt/iso/boot.iso" rfl rfl rfl rfl rfl rfl

/-- Claim C4: when a device-attach/start failure `e` triggers rollback, the
error `_create_single_vm` raises is `TrueNASError("VM configuration failed:
{e}")`, built from the original failure; exactly one cleanup delete is
issued, and the raised error is unchanged under any environment that differs
only in the outcomes and messages of `vm.delete` calls (the cleanup outcome
never replaces the original error). -/
theorem create_single_vm_propagates_original_error (env : Env) (t : Templates)
    (name : String) (cfg : TypeConfig) (vncPort : Nat) (storage : StorageConfig)
    (pw : String) (n cpu mem : Nat) (e : PyErr)
    (hcpu : cfg.cpu = some cpu) (hmem : cfg.memory = some mem)
    (hok : env.ok n (RCall.vmCreate name cpu cpu mem) = true)
    (hfail : (configure_and_start env t (env.createId n) name cfg vncPort
      storage pw (n + 1)).err = some e) :
    (create_single_vm env t name cfg vncPort storage pw n).err =
      some (.trueNASError ("VM configuration failed: " ++ e.str)) ∧
    (create_single_vm env t name cfg vncPort storage pw n).calls.countP
      RCall.isDelete = 1 ∧
    ∀ env2, EnvAgree env env2 →
      (create_single_vm env2 t name cfg vncPort storage pw n).err =
        some (.trueNASError ("VM configuration failed: " ++ e.str)) := by
  have hmain : (create_single_vm env t name cfg vncPort storage pw n).err =
      some (.trueNASError ("VM configuration failed: " ++ e.str)) := by
    rw [create_single_vm]
    simp only [hcpu, hmem, hok, if_true, hfail]
  refine ⟨hmain, ?_, fun env2 h => ?_⟩
  · rw [create_single_vm]
    simp only [hcpu, hmem, hok, if_true, hfail]
    simp [List.countP_cons, List.countP_append, isDelete_vmCreate,
      isDelete_vmDelete, configure_countP_isDelete]
  · rw [← create_single_vm_agree h t name cfg vncPort storage pw n]
    exact hmain

/-- Witness for C4: `vm.create` succeeds, the display attach fails with the
transport message `boom`, and the raised error wraps exactly that failure. -/
theorem create_single_vm_propagates_original_error_witness :
    (create_single_vm envFailDisplay tmpl0 "controlplane01" tcFull 5911
        storageOk "pw" 0).err =
      some (.trueNASError ("VM configuration failed: " ++
        (PyErr.trueNASError "Failed to add device DISPLAY: boom").str)) ∧
    (create_single_vm envFailDisplay tmpl0 "controlplane01" tcFull 5911
        storageOk "pw" 0).calls.countP RCall.isDelete = 1 ∧
    ∀ env2, EnvAgree envFailDisplay env2 →
      (create_single_vm env2 tmpl0 "controlplane01" tcFull 5911
          storageOk "pw" 0).err =
        some (.trueNASError ("VM configuration failed: " ++
          (PyErr.trueNASError "Failed to add device DISPLAY: boom").str)) :=
  create_single_vm_propagates_original_error envFailDisplay tmpl0
    "controlplane01" tcFull 5911 storageOk "pw" 0 2 4294967296
    (PyErr.trueNASError "Failed to add device DISPLAY: boom")
    rfl rfl rfl (by decide)

theorem filter_isDeviceCreate_planned (vmId : Nat) (name : String)
    (vncPort : Nat) (pw cd pool : String) (nics : List (String × String))
    (disks : List (String × Nat)) :
    (plannedCalls vmId name vncPort pw cd pool nics disks).filter
        RCall.isDeviceCreate =
      plannedCalls vmId name vncPort pw cd pool nics disks := by
  rw [List.filter_eq_self]
  intro c hc
  simp [mem_plannedCalls hc]

theorem isDiskCreate_vmCreate (s : String) (a b c : Nat) :
    (RCall.vmCreate s a b c).isDiskCreate = false := rfl

theorem isDiskCreate_vmStart (i : Nat) :
    (RCall.vmStart i).isDiskCreate = false := rfl

theorem isDiskCreate_display (vm p : Nat) (pw : String) :
    (RCall.deviceCreate (create_display_device vm p pw)).isDiskCreate = false := rfl

theorem isDiskCreate_cdrom (vm : Nat) (path : String) :
    (RCall.deviceCreate (create_cdrom_device vm path)).isDiskCreate = false := rfl

/-- Claim C5: the `vm.device.create` calls issued for one VM are always an
initial segment of the sequence display, cdrom, NICs in declared order,
disks in declared order; and when the instance is fully provisioned (no
error raised), they are exactly that sequence. -/
theorem create_single_vm_device_order (env : Env) (t : Templates) (name : String)
    (cfg : TypeConfig) (vncPort : Nat) (storage : StorageConfig) (pw : String)
    (n cpu mem : Nat) (nics : List (String × String))
    (disks : List (String × Nat)) (pool cd : String)
    (hcpu : cfg.cpu = some cpu) (hmem : cfg.memory = some mem)
    (hpool : storage.pool_path = some pool) (hdisk : cfg.disk = some disks)
    (hnet : cfg.network = some nics) (hcd : storage.cdrom_path = some cd) :
    (∃ k, (create_single_vm env t name cfg vncPort storage pw n).calls.filter
        RCall.isDeviceCreate =
      (plannedCalls (env.createId n) name vncPort pw cd pool nics disks).take k) ∧
    ((create_single_vm env t name cfg vncPort storage pw n).err = none →
      (create_single_vm env t name cfg vncPort storage pw n).calls.filter
        RCall.isDeviceCreate =
        plannedCalls (env.createId n) name vncPort pw cd pool nics disks) := by
  rw [create_single_vm]
  simp only [hcpu, hmem]
  cases hok : env.ok n (RCall.vmCreate name cpu cpu mem) with
  | false =>
    refine ⟨⟨0, ?_⟩, fun h => by simp at h⟩
    simp [isDeviceCreate_vmCreate]
  | true =>
    simp only [if_true]
    obtain ⟨hfullconf, hcases⟩ := configure_spec env t (env.createId n) name cfg
      vncPort storage pw (n + 1) hpool hdisk hnet hcd
    cases herr : (configure_and_start env t (env.createId n) name cfg vncPort
        storage pw (n + 1)).err with
    | none =>
      have hcalls := hfullconf herr
      simp only [herr]
      refine ⟨⟨(plannedCalls (env.createId n) name vncPort pw cd pool nics
        disks).length, ?_⟩, fun _ => ?_⟩ <;>
      · rw [hcalls]
        simp [isDeviceCreate_vmCreate, isDeviceCreate_vmStart,
          filter_isDeviceCreate_planned]
    | some e =>
      simp only [herr]
      rcases hcases with ⟨k, hk⟩ | hfull
      · refine ⟨⟨k, ?_⟩, fun h => by simp at h⟩
        rw [hk]
        simp [isDeviceCreate_vmCreate, isDeviceCreate_vmDelete,
          filter_isDeviceCreate_take_planned]
      · refine ⟨⟨(plannedCalls (env.createId n) name vncPort pw cd pool nics
          disks).length, ?_⟩, fun h => by simp at h⟩
        rw [hfull]
        simp [isDeviceCreate_vmCreate, isDeviceCreate_vmStart,
          isDeviceCreate_vmDelete, filter_isDeviceCreate_planned]

/-- Witness for C5: with every remote call succeeding, the instance is fully
provisioned and the device calls are exactly the planned sequence. -/
theorem create_single_vm_device_order_witness :
    (∃ k, (create_single_vm envAllOk tmpl0 "controlplane01" tcFull 5911
        storageOk "pw" 0).calls.filter RCall.isDeviceCreate =
      (plannedCalls (envAllOk.createId 0) "controlplane01" 5911 "pw"
        "/mnt/iso/boot.iso" "tank/vms" [("net0", "br0")] [("os", 10)]).take k) ∧
    ((create_single_vm envAllOk tmpl0 "controlplane01" tcFull 5911
        storageOk "pw" 0).err = none →
      (create_single_vm envAllOk tmpl0 "controlplane01" tcFull 5911
        storageOk "pw" 0).calls.filter RCall.isDeviceCreate =
        plannedCalls (envAllOk.createId 0) "controlplane01" 5911 "pw"
          "/mnt/iso/boot.iso" "tank/vms" [("net0", "br0")] [("os", 10)]) :=
  create_single_vm_device_order envAllOk tmpl0 "controlplane01" tcFull 5911
    storageOk "pw" 0 2 4294967296 [("net0", "br0")] [("os", 10)] "tank/vms"
    "/mnt/iso/boot.iso" rfl rfl rfl rfl rfl rfl

/-- Claim C9: for a fully provisioned VM, the disk devices submitted are
exactly the planned disk sequence, and the entry at zero-based position `i`
with declared size `gb` carries `zvol_name = "{pool}/{name}-disk{i}"` and
`zvol_volsize = gb * 1073741824`. -/
theorem create_single_vm_disk_device_fields (env : Env) (t : Templates)
    (name : String) (cfg : TypeConfig) (vncPort : Nat) (storage : StorageConfig)
    (pw : String) (n cpu mem : Nat) (nics : List (String × String))
    (disks : List (String × Nat)) (pool cd : String)
    (hcpu : cfg.cpu = some cpu) (hmem : cfg.memory = some mem)
    (hpool : storage.pool_path = some pool) (hdisk : cfg.disk = some disks)
    (hnet : cfg.network = some nics) (hcd : storage.cdrom_path = some cd)
    (hsucc : (create_single_vm env t name cfg vncPort storage pw n).err = none) :
    ((create_single_vm env t name cfg vncPort storage pw n).calls.filter
        RCall.isDiskCreate =
      plannedDiskCalls (env.createId n) name pool disks 0) ∧
    (∀ i key gb, disks.get? i = some (key, gb) →
      (plannedDiskCalls (env.createId n) name pool disks 0).get? i =
        some (RCall.deviceCreate (Device.disk (env.createId n)
          (pool ++ "/" ++ name ++ "-disk" ++ toString i) (gb * 1073741824)))) := by
  constructor
  · have hcalls := create_single_vm_success_calls env t name cfg vncPort storage
      pw n hcpu hmem hpool hdisk hnet hcd hsucc
    rw [hcalls]
    simp [plannedCalls, isDiskCreate_vmCreate, isDiskCreate_vmStart,
      isDiskCreate_display, isDiskCreate_cdrom, filter_isDiskCreate_nicCalls,
      filter_isDiskCreate_plannedDiskCalls]
  · intro i key gb hget
    rw [plannedDiskCalls_get (env.createId n) name pool disks 0 i, hget]
    simp [create_disk_device]

/-- Witness for C9: with every remote call succeeding, the single declared
10 GB disk is submitted as `tank/vms/controlplane01-disk0` with volsize
`10 * 1073741824`. -/
theorem create_single_vm_disk_device_fields_witness :
    ((create_single_vm envAllOk tmpl0 "controlplane01" tcFull 5911
        storageOk "pw" 0).calls.filter RCall.isDiskCreate =
      plannedDiskCalls (envAllOk.createId 0) "controlplane01" "tank/vms"
        [("os", 10)] 0) ∧
    (∀ i key gb, ([("os", 10)] : List (String × Nat)).get? i = some (key, gb) →
      (plannedDiskCalls (envAllOk.createId 0) "controlplane01" "tank/vms"
          [("os", 10)] 0).get? i =
        some (RCall.deviceCreate (Device.disk (envAllOk.createId 0)
          ("tank/vms" ++ "/" ++ "controlplane01" ++ "-disk" ++ toString i)
          (gb * 1073741824)))) :=
  create_single_vm_disk_device_fields envAllOk tmpl0 "controlplane01" tcFull
    5911 storageOk "pw" 0 2 4294967296 [("net0", "br0")] [("os", 10)]
    "tank/vms" "/mnt/iso/boot.iso" rfl rfl rfl rfl rfl rfl (by decide)

/-- Claim C3 (amended): provided the type section carries `cpu` and `memory`
and the storage section carries `pool_path` and `cdrom_path`, `create_vm_type`
performs exactly `max(count, 0)` per-instance creation attempts — each
issuing its own `vm.create` — independent of the outcome of every remote
call, and the loop itself never raises: each per-instance `TrueNASError` is
caught and the loop continues.  (Without `cpu`/`memory` the first attempt
raises an uncaught `KeyError`; see the counterexample.) -/
theorem create_vm_type_attempts (env : Env) (t : Templates) (pw : String)
    (config : Config) (vmType : String) (vncStartPort n : Nat)
    (cfg : TypeConfig) (storage : StorageConfig)
    (hget : config.getType vmType = some cfg)
    (hstor : config.storage = some storage)
    {cpu mem : Nat} (hcpu : cfg.cpu = some cpu) (hmem : cfg.memory = some mem)
    {pool cd : String} (hpool : storage.pool_path = some pool)
    (hcd : storage.cdrom_path = some cd) :
    (create_vm_type env t pw config vmType vncStartPort n).attempts =
      (cfg.count.getD 0).toNat ∧
    (create_vm_type env t pw config vmType vncStartPort n).err = none ∧
    (create_vm_type env t pw config vmType vncStartPort n).calls.countP
      RCall.isVmCreate = (cfg.count.getD 0).toNat := by
  have htr : cfg.truthy = true := by simp [TypeConfig.truthy, hcpu]
  have hstr : storage.truthy = true := by simp [StorageConfig.truthy, hpool]
  rw [create_vm_type]
  simp only [hget, htr, hstor, hstr, hpool, hcd]
  by_cases hcount : cfg.count.getD 0 ≤ 0
  · have h0 : (cfg.count.getD 0).toNat = 0 := Int.toNat_of_nonpos hcount
    simp [hcount, h0, List.countP, List.countP.go]
  · simp only [hcount, if_false]
    exact createLoop_spec env t pw vmType vncStartPort cfg storage hcpu hmem
      (cfg.count.getD 0).toNat 0 n

/-- Witness for C3 (amended) at a complete two-instance section: exactly two
attempts and two `vm.create` calls occur and no error is raised. -/
theorem create_vm_type_attempts_witness :
    (create_vm_type envAllOk tmpl0 "pw" cfgOk "controlplane" 5910 0).attempts =
      (tcFull.count.getD 0).toNat ∧
    (create_vm_type envAllOk tmpl0 "pw" cfgOk "controlplane" 5910 0).err = none ∧
    (create_vm_type envAllOk tmpl0 "pw" cfgOk "controlplane" 5910 0).calls.countP
      RCall.isVmCreate = (tcFull.count.getD 0).toNat :=
  create_vm_type_attempts envAllOk tmpl0 "pw" cfgOk "controlplane" 5910 0
    tcFull storageOk rfl rfl rfl rfl rfl rfl

/-- Counterexample to claim C3 as stated: with `count = 2` but no `cpu` key
in the section, the first attempt raises `KeyError("cpu")`, which the loop
does not catch; only one attempt is entered instead of two, and the error
propagates out of `create_vm_type`. -/
theorem create_vm_type_missing_cpu_counterexample :
    (create_vm_type envAllOk tmpl0 "pw" cfgNoCpu "controlplane" 5910 0).attempts
        = 1 ∧
    (create_vm_type envAllOk tmpl0 "pw" cfgNoCpu "controlplane" 5910 0).err =
      some (.keyError "cpu") ∧
    tcNoCpu.count = some 2 ∧ tcNoCpu.cpu = none ∧
    cfgNoCpu.getType "controlplane" = some tcNoCpu := by
  refine ⟨?_, ?_, rfl, rfl, ?_⟩ <;> decide

/-- Claim C10 (amended): if the per-type section exists and is a non-empty
mapping but has no `count` key, and the storage section is present and
non-empty, then `create_vm_type` treats the count as 0 and returns with no
remote call, no attempt and no error.  (A present but *empty* section is
falsy in Python and instead raises `TrueNASError`; see the
counterexample.) -/
theorem create_vm_type_missing_count_noop (env : Env) (t : Templates)
    (pw : String) (config : Config) (vmType : String) (vncStartPort n : Nat)
    (cfg : TypeConfig) (storage : StorageConfig)
    (hget : config.getType vmType = some cfg) (htr : cfg.truthy = true)
    (hcount : cfg.count = none)
    (hstor : config.storage = some storage) (hstr : storage.truthy = true) :
    create_vm_type env t pw config vmType vncStartPort n = ⟨n, 0, [], none⟩ := by
  rw [create_vm_type]
  simp [hget, htr, hstor, hstr, hcount]

/-- Witness for C10 (amended): a non-empty worker section without `count`
makes `create_vm_type` a silent no-op. -/
theorem create_vm_type_missing_count_noop_witness :
    create_vm_type envAllOk tmpl0 "pw" cfgNoCount "worker" 5920 0 =
      ⟨0, 0, [], none⟩ :=
  create_vm_type_missing_count_noop envAllOk tmpl0 "pw" cfgNoCount "worker"
    5920 0 tcNoCount storageOk rfl rfl rfl rfl rfl

/-- Counterexample to claim C10 as stated: a per-type section that exists
but is an empty mapping (hence has no `count` key) is falsy, so
`create_vm_type` raises a TrueNASError saying the VM type was not found in
the configuration, instead of returning without error. -/
theorem create_vm_type_empty_section_counterexample :
    cfgEmptyWorker.getType "worker" = some tcEmpty ∧ tcEmpty.count = none ∧
    (create_vm_type envAllOk tmpl0 "pw" cfgEmptyWorker "worker" 5920 0).err =
      some (.trueNASError
        "VM type \x27worker\x27 not found in configuration") := by
  refine ⟨?_, rfl, ?_⟩ <;> decide

/-- Claim C2 (divergence exhibit): with a connected client whose
`auth.logout` raises, `disconnect` records only the logout attempt — the
exception is caught by the surrounding handler and `client.close()` is never
executed, contradicting the requirement that a logout failure must not
prevent the close of the transport handle. -/
theorem disconnect_skips_close_when_logout_fails :
    (disconnect envLogoutFails true 0).2 = [RCall.authLogout] ∧
    RCall.clientClose ∉ (disconnect envLogoutFails true 0).2 ∧
    (disconnect envAllOk true 0).2 = [RCall.authLogout, RCall.clientClose] := by
  refine ⟨?_, ?_, ?_⟩ <;> decide

theorem load_configuration_none {c : Config}
    (hl : load_configuration c = none) :
    ∃ s, c.storage = some s ∧ s.pool_path.isSome = true ∧
      s.cdrom_path.isSome = true ∧ (c.getType "controlplane").isSome = true ∧
      (c.getType "worker").isSome = true := by
  cases hstor : c.storage with
  | none => rw [load_configuration, hstor] at hl; simp at hl
  | some s =>
    rw [load_configuration, hstor] at hl
    refine ⟨s, rfl, ?_, ?_, ?_, ?_⟩ <;>
    · by_cases h1 : (c.getType "controlplane").isNone <;>
        by_cases h2 : (c.getType "worker").isNone <;>
        by_cases h3 : s.pool_path.isNone <;>
        by_cases h4 : s.cdrom_path.isNone <;>
        simp_all [Option.isNone_iff_eq_none, Option.isSome_iff_exists,
          Option.ne_none_iff_exists']

/-- Claim C6 (amended): a configuration missing `storage.pool_path` or
`storage.cdrom_path`, or missing one of the `storage`, `controlplane`,
`worker` sections, is rejected by `load_configuration` before anything else
happens: the `create` run issues no remote call at all and fails.  The
per-type fields (`count`, `cpu`, `memory`, `network`, `disk`) are *not*
validated up front — a missing `network`, for instance, is detected only
after `vm.create` has been issued (see the counterexample). -/
theorem load_validation_blocks_remote_calls (env : Env) (t : Templates)
    (pw : String) (c : Config)
    (h : c.storage = none ∨
      (∃ s, c.storage = some s ∧ (s.pool_path = none ∨ s.cdrom_path = none)) ∨
      c.getType "controlplane" = none ∨ c.getType "worker" = none) :
    (run_create env t pw c).calls = [] ∧
    (run_create env t pw c).err.isSome = true := by
  cases hl : load_configuration c with
  | some e => constructor <;> simp [run_create, hl]
  | none =>
    exfalso
    obtain ⟨s, hs, hp, hc, h1, h2⟩ := load_configuration_none hl
    rcases h with h | ⟨s2, hs2, hf⟩ | h | h
    · rw [h] at hs; exact Option.noConfusion hs
    · rw [hs2] at hs
      obtain rfl : s2 = s := by injection hs
      rcases hf with hf | hf
      · rw [hf] at hp; simp at hp
      · rw [hf] at hc; simp at hc
    · rw [h] at h1; simp at h1
    · rw [h] at h2; simp at h2

/-- Witness for C6 (amended): a configuration whose storage section lacks
`pool_path` produces a run with an error and zero remote calls. -/
theorem load_validation_blocks_remote_calls_witness :
    (run_create envAllOk tmpl0 "pw" cfgNoPool).calls = [] ∧
    (run_create envAllOk tmpl0 "pw" cfgNoPool).err.isSome = true :=
  load_validation_blocks_remote_calls envAllOk tmpl0 "pw" cfgNoPool
    (Or.inr (Or.inl ⟨⟨none, some "/mnt/iso/boot.iso", 0⟩, rfl, Or.inl rfl⟩))

/-- Counterexample to claim C6 as stated: the controlplane section of this
configuration lacks the required `network` field, yet the `create` run still
issues a `vm.create` call (and then rolls the instance back): the missing
field is not detected before remote mutation. -/
theorem run_create_missing_network_counterexample :
    cfgNoNet.getType "controlplane" = some tcNoNet ∧ tcNoNet.network = none ∧
    (run_create envAllOk tmpl0 "pw" cfgNoNet).calls.countP RCall.isVmCreate
      = 1 ∧
    (run_create envAllOk tmpl0 "pw" cfgNoNet).calls.countP RCall.isDelete
      = 1 := by
  refine ⟨?_, rfl, ?_, ?_⟩ <;> decide

/-- A remote VM inventory for the decommission fixtures. -/
def vmsQuery : List VMRec := [⟨1, "controlplane01"⟩, ⟨2, "worker01"⟩, ⟨3, "other01"⟩]

/-- An environment where every call succeeds and `vm.query` returns
`vmsQuery`. -/
def envQueryOk : Env :=
  { ok := fun _ _ => true, errMsg := fun _ _ => "boom",
    createId := fun _ => 0, query := vmsQuery }

/-- An environment where every `vm.poweroff` fails and everything else
succeeds, over the same inventory. -/
def envPoweroffFails : Env :=
  { ok := fun _ c => match c with | .vmPoweroff _ => false | _ => true,
    errMsg := fun _ _ => "busy", createId := fun _ => 0, query := vmsQuery }

/-- Claim C7: after a successful `vm.query`, `destroy_managed_vms` issues
exactly one poweroff and one delete per VM whose name starts with a
configured prefix (default `["controlplane", "worker"]`) and nothing else,
returns successfully, and in particular performs zero poweroff/delete calls
when no queried VM matches. -/
theorem destroy_managed_only_matched (env : Env) (pres : Option (List String))
    (n : Nat) (hq : env.ok n RCall.vmQuery = true) :
    (destroy_managed_vms env pres n).calls =
      RCall.vmQuery :: teardownCalls (matchedVMs env pres) ∧
    (destroy_managed_vms env pres n).err = none ∧
    (matchedVMs env pres = [] →
      (destroy_managed_vms env pres n).calls = [RCall.vmQuery]) := by
  obtain ⟨h1, h2⟩ := destroy_char env pres n hq
  refine ⟨h1, h2, fun he => ?_⟩
  rw [h1, he]
  rfl

/-- Witness for C7: over `{controlplane01, worker01, other01}` with the
default prefixes, exactly `controlplane01` and `worker01` are matched and
torn down. -/
theorem destroy_managed_only_matched_witness :
    matchedVMs envQueryOk none = [⟨1, "controlplane01"⟩, ⟨2, "worker01"⟩] ∧
    ((destroy_managed_vms envQueryOk none 0).calls =
      RCall.vmQuery :: teardownCalls (matchedVMs envQueryOk none) ∧
    (destroy_managed_vms envQueryOk none 0).err = none ∧
    (matchedVMs envQueryOk none = [] →
      (destroy_managed_vms envQueryOk none 0).calls = [RCall.vmQuery])) :=
  ⟨by decide, destroy_managed_only_matched envQueryOk none 0 rfl⟩

/-- Claim C8: for every matched VM the delete is attempted regardless of the
poweroff outcome, and the whole sequence of issued teardown calls is the
same under any environment with the same inventory — per-VM poweroff/delete
failures block neither the delete of the same VM nor later VMs. -/
theorem destroy_failures_isolated (env : Env) (pres : Option (List String))
    (n : Nat) (hq : env.ok n RCall.vmQuery = true) :
    (∀ vm ∈ matchedVMs env pres,
      RCall.vmPoweroff vm.id ∈ (destroy_managed_vms env pres n).calls ∧
      RCall.vmDelete vm.id true true ∈ (destroy_managed_vms env pres n).calls) ∧
    (∀ env2 : Env, env2.query = env.query → env2.ok n RCall.vmQuery = true →
      (destroy_managed_vms env2 pres n).calls =
        (destroy_managed_vms env pres n).calls) := by
  obtain ⟨h1, _⟩ := destroy_char env pres n hq
  constructor
  · intro vm hvm
    rw [h1]
    obtain ⟨hp, hd⟩ := teardownCalls_mem hvm
    exact ⟨List.mem_cons_of_mem _ hp, List.mem_cons_of_mem _ hd⟩
  · intro env2 hqr hq2
    obtain ⟨h1b, _⟩ := destroy_char env2 pres n hq2
    rw [h1, h1b]
    have hm : matchedVMs env2 pres = matchedVMs env pres := by
      simp [matchedVMs, hqr]
    rw [hm]

/-- Witness for C8: even when every poweroff fails, the deletes of both
matched VMs are still issued. -/
theorem destroy_failures_isolated_witness :
    RCall.vmDelete 1 true true ∈
      (destroy_managed_vms envPoweroffFails none 0).calls ∧
    RCall.vmDelete 2 true true ∈
      (destroy_managed_vms envPoweroffFails none 0).calls :=
  ⟨((destroy_failures_isolated envPoweroffFails none 0 rfl).1
      ⟨1, "controlplane01"⟩ (by decide)).2,
   ((destroy_failures_isolated envPoweroffFails none 0 rfl).1
      ⟨2, "worker01"⟩ (by decide)).2⟩

end TruenasVmManager
